import Mathlib

/-!
Shallow embedding of the CHIP-8 interpreter in src/main.rs.

Machine integers are modelled as Nat with explicit wrap-around (% 256 for u8
Wrapping arithmetic, % 65536 for u16 Wrapping arithmetic).  Checked (debug)
integer arithmetic and array indexing, which panic in the source on
overflow/underflow or out-of-bounds, are modelled with Option: a panic is
None.  Fixed-size arrays ([u8; 4096], [u16; 16], [bool; 16], the display's
Vec of Vec of bool) are modelled as total functions guarded by explicit
bounds checks in the access helpers, exactly where the source indexes them.
-/

namespace Chip8

/-- const GP_REG_CNT: usize = 16 -/
def GP_REG_CNT : Nat := 16
/-- const KEYBOARD_SIZE: usize = 16 -/
def KEYBOARD_SIZE : Nat := 16
/-- const RAM_SIZE: usize = 0x1000 -/
def RAM_SIZE : Nat := 0x1000
/-- const STACK_SIZE: usize = 16 -/
def STACK_SIZE : Nat := 16
/-- const DISPLAY_MODE_WIDTH: usize = 64 -/
def DISPLAY_MODE_WIDTH : Nat := 64
/-- const DISPLAY_MODE_HEIGHT: usize = 32 -/
def DISPLAY_MODE_HEIGHT : Nat := 32
/-- const ENTRY_POINT: u16 = 0x200 -/
def ENTRY_POINT : Nat := 0x200

/-- struct Reg: general purpose regs V, address register I, delay timer DT,
sound timer ST, program counter PC, stack pointer SP.  V is [u8; 16],
modelled as a total function from the register index. -/
structure Reg where
  V : Nat → Nat
  I : Nat
  DT : Nat
  ST : Nat
  PC : Nat
  SP : Nat

/-- struct Audio wrapping a rodio Sink.  `hasSource` models
`player.len() > 0` (true once the infinite sine source has been appended:
the source repeats forever, so the queue never drains) and `paused` models
the sink's paused flag (a fresh sink is not paused and empty). -/
structure Audio where
  hasSource : Bool
  paused : Bool

/-- Audio::is_playing: `!self.player.is_paused() && self.player.len() > 0`. -/
def Audio.is_playing (a : Audio) : Bool := !a.paused && a.hasSource

/-- Audio::play: appends the infinite sine source when the queue is empty
(so the queue is non-empty afterwards in every case) and unpauses. -/
def Audio.play (_ : Audio) : Audio := { hasSource := true, paused := false }

/-- Audio::stop: `self.player.pause()`. -/
def Audio.stop (a : Audio) : Audio := { a with paused := true }

/-- struct Display: width, height and a 2-D boolean buffer, indexed
row-first as in `buffer[row][col]`. -/
structure Display where
  width : Nat
  height : Nat
  buffer : Nat → Nat → Bool

/-- Display::cls: `self.buffer = vec![vec![false; self.width]; self.height]`. -/
def Display.cls (d : Display) : Display := { d with buffer := fun _ _ => false }

/-- Display::pixel: wraps row and col by height and width, XORs the update
bit into the cell, and returns the `overriden` flag (which the Dxyn handler
ignores). -/
def Display.pixel (d : Display) (row col : Nat) (update : Bool) : Display × Bool :=
  let r := row % d.height
  let c := col % d.width
  let updated := xor (d.buffer r c) update
  let overriden := d.buffer r c != update
  ({ d with buffer := fun i j => if i = r ∧ j = c then updated else d.buffer i j }, overriden)

/-- Checked (debug-build) read `state.display.buffer[row][col]`: in the
source this indexing panics when row ≥ height or col ≥ width. -/
def bufGet (d : Display) (row col : Nat) : Option Bool :=
  if row < d.height ∧ col < d.width then some (d.buffer row col) else none

/-- struct State: all variables needed for execution. -/
structure State where
  mem : Nat → Nat
  stack : Nat → Nat
  reg : Reg
  display : Display
  audio : Audio
  key : Nat → Bool

/-- Checked read `state.mem[i]` of the [u8; RAM_SIZE] array. -/
def memGet (m : Nat → Nat) (i : Nat) : Option Nat :=
  if i < RAM_SIZE then some (m i) else none

/-- Checked write `state.mem[i] = v`. -/
def memSet (m : Nat → Nat) (i v : Nat) : Option (Nat → Nat) :=
  if i < RAM_SIZE then some (fun j => if j = i then v else m j) else none

/-- Checked read `state.stack[i]` of the [u16; STACK_SIZE] array. -/
def stackGet (st : Nat → Nat) (i : Nat) : Option Nat :=
  if i < STACK_SIZE then some (st i) else none

/-- Checked write `state.stack[i] = v`. -/
def stackSet (st : Nat → Nat) (i v : Nat) : Option (Nat → Nat) :=
  if i < STACK_SIZE then some (fun j => if j = i then v else st j) else none

/-- Checked read `state.key[i]` of the [bool; KEYBOARD_SIZE] array. -/
def keyGet (k : Nat → Bool) (i : Nat) : Option Bool :=
  if i < KEYBOARD_SIZE then some (k i) else none

/-- Register-bank write `state.reg.V[i] = v`. -/
def setV (r : Reg) (i v : Nat) : Reg :=
  { r with V := fun j => if j = i then v else r.V j }

/-- Checked u8 addition as performed in a debug build: overflow past 255 is
a panic (None). -/
def u8add (a b : Nat) : Option Nat :=
  if a + b ≤ 255 then some (a + b) else none

/-- Checked u8 subtraction as performed in a debug build: underflow below 0
is a panic (None). -/
def u8sub (a b : Nat) : Option Nat :=
  if b ≤ a then some (a - b) else none

/-- Wrapping<u8> addition. -/
def wadd8 (a b : Nat) : Nat := (a + b) % 256

/-- Wrapping<u8> subtraction (operands are u8 values, i.e. below 256). -/
def wsub8 (a b : Nat) : Nat := (a % 256 + 256 - b % 256) % 256

/-- Wrapping<u16> addition. -/
def wadd16 (a b : Nat) : Nat := (a + b) % 65536

/-- Rust range `a..b`: the list of i with a ≤ i < b (empty when b ≤ a). -/
def rustRange (a b : Nat) : List Nat := (List.range (b - a)).map (a + ·)

/-- Reg::update_DT: decrement DT if positive. -/
def Reg.update_DT (r : Reg) : Reg :=
  if r.DT > 0 then { r with DT := r.DT - 1 } else r

/-- Reg::update_ST: if ST > 0, start the audio trigger when it is not
already playing, decrement ST, and stop the trigger when ST reaches 0. -/
def Reg.update_ST (r : Reg) (audio : Audio) : Reg × Audio :=
  if r.ST > 0 then
    let audio := if !audio.is_playing then audio.play else audio
    let st := r.ST - 1
    let audio := if st = 0 then audio.stop else audio
    ({ r with ST := st }, audio)
  else (r, audio)

/-- 00E0 - CLS: clear the display. -/
def op00E0 (s : State) : State := { s with display := s.display.cls }

/-- 00EE - RET: PC := stack[SP]; SP := SP - 1 (checked u8 decrement, so a
RET on the empty stack, SP = 0, is a panic). -/
def op00EE (s : State) : Option State :=
  match stackGet s.stack s.reg.SP with
  | none => none
  | some pc =>
    match u8sub s.reg.SP 1 with
    | none => none
    | some sp => some { s with reg := { s.reg with PC := pc, SP := sp } }

/-- 1nnn - JP addr. -/
def op1nnn (a b c : Nat) (s : State) : State :=
  { s with reg := { s.reg with PC := a * 256 + b * 16 + c } }

/-- 2nnn - CALL addr: SP := SP + 1 (checked); stack[SP] := PC (checked
index, so SP reaching STACK_SIZE is a panic); PC := nnn. -/
def op2nnn (a b c : Nat) (s : State) : Option State :=
  match u8add s.reg.SP 1 with
  | none => none
  | some sp =>
    match stackSet s.stack sp s.reg.PC with
    | none => none
    | some st =>
      some { s with stack := st,
                    reg := { s.reg with SP := sp, PC := a * 256 + b * 16 + c } }

/-- 3xkk - SE Vx, byte. -/
def op3xkk (x k1 k2 : Nat) (s : State) : State :=
  let kk := k1 * 16 + k2
  if s.reg.V x = kk then { s with reg := { s.reg with PC := s.reg.PC + 2 } } else s

/-- 4xkk - SNE Vx, byte. -/
def op4xkk (x k1 k2 : Nat) (s : State) : State :=
  let kk := k1 * 16 + k2
  if s.reg.V x ≠ kk then { s with reg := { s.reg with PC := s.reg.PC + 2 } } else s

/-- 5xy0 - SE Vx, Vy. -/
def op5xy0 (x y : Nat) (s : State) : State :=
  if s.reg.V x = s.reg.V y then { s with reg := { s.reg with PC := s.reg.PC + 2 } } else s

/-- 6xkk - LD Vx, byte. -/
def op6xkk (x k1 k2 : Nat) (s : State) : State :=
  { s with reg := setV s.reg x (k1 * 16 + k2) }

/-- 7xkk - ADD Vx, byte (Wrapping u8 addition). -/
def op7xkk (x k1 k2 : Nat) (s : State) : State :=
  { s with reg := setV s.reg x (wadd8 (s.reg.V x) (k1 * 16 + k2)) }

/-- 8xy0 - LD Vx, Vy. -/
def op8xy0 (x y : Nat) (s : State) : State :=
  { s with reg := setV s.reg x (s.reg.V y) }

/-- 8xy1 - OR Vx, Vy. -/
def op8xy1 (x y : Nat) (s : State) : State :=
  { s with reg := setV s.reg x (s.reg.V x ||| s.reg.V y) }

/-- 8xy2 - AND Vx, Vy. -/
def op8xy2 (x y : Nat) (s : State) : State :=
  { s with reg := setV s.reg x (s.reg.V x &&& s.reg.V y) }

/-- 8xy3 - XOR Vx, Vy. -/
def op8xy3 (x y : Nat) (s : State) : State :=
  { s with reg := setV s.reg x (s.reg.V x ^^^ s.reg.V y) }

/-- 8xy4 - ADD Vx, Vy: the source first assigns the carry into V[0xF] and
only then computes the wrapping sum, re-reading V[x] and V[y] from the
updated bank (this matters when x or y is 0xF). -/
def op8xy4 (x y : Nat) (s : State) : State :=
  let r1 := setV s.reg 0xF (if 255 < s.reg.V x + s.reg.V y then 1 else 0)
  { s with reg := setV r1 x (wadd8 (r1.V x) (r1.V y)) }

/-- 8xy5 - SUB Vx, Vy: carry flag first, then the wrapping difference from
the updated bank. -/
def op8xy5 (x y : Nat) (s : State) : State :=
  let r1 := setV s.reg 0xF (if s.reg.V y < s.reg.V x then 1 else 0)
  { s with reg := setV r1 x (wsub8 (r1.V x) (r1.V y)) }

/-- 8xy6 - SHR Vx: flag from the low bit, then shift right (flag first,
as in the source). -/
def op8xy6 (x : Nat) (s : State) : State :=
  let r1 := setV s.reg 0xF (if s.reg.V x &&& 0x01 ≠ 0 then 1 else 0)
  { s with reg := setV r1 x (r1.V x / 2) }

/-- 8xy7 - SUBN Vx, Vy. -/
def op8xy7 (x y : Nat) (s : State) : State :=
  let r1 := setV s.reg 0xF (if s.reg.V x < s.reg.V y then 1 else 0)
  { s with reg := setV r1 x (wsub8 (r1.V y) (r1.V x)) }

/-- 8xyE - SHL Vx: flag from the high bit, then shift left (u8 `<<` keeps
the low 8 bits). -/
def op8xyE (x : Nat) (s : State) : State :=
  let r1 := setV s.reg 0xF (if s.reg.V x &&& 0x80 ≠ 0 then 1 else 0)
  { s with reg := setV r1 x (r1.V x * 2 % 256) }

/-- 9xy0 - SNE Vx, Vy. -/
def op9xy0 (x y : Nat) (s : State) : State :=
  if s.reg.V x ≠ s.reg.V y then { s with reg := { s.reg with PC := s.reg.PC + 2 } } else s

/-- Annn - LD I, addr. -/
def opAnnn (a b c : Nat) (s : State) : State :=
  { s with reg := { s.reg with I := a * 256 + b * 16 + c } }

/-- Bnnn - JP V0, addr. -/
def opBnnn (a b c : Nat) (s : State) : State :=
  { s with reg := { s.reg with PC := a * 256 + b * 16 + c + s.reg.V 0 } }

/-- Cxkk - RND Vx, byte: the random byte is supplied as an oracle. -/
def opCxkk (rnd x k1 k2 : Nat) (s : State) : State :=
  { s with reg := setV s.reg x (rnd &&& (k1 * 16 + k2)) }

/-- Inner `while mask != 0` loop of the Dxyn handler, for one sprite byte.
The fuel argument counts the remaining bits (the mask starts at 0x80 and is
halved each iteration, so the loop runs exactly 8 times; the fuel makes the
recursion structural without changing the iteration count).  The collision
check `byte & mask != 0 && state.display.buffer[row][col]` short-circuits:
the buffer is indexed, without any wrapping, only when the sprite bit is
set, and that read panics (None) out of bounds.  The subsequent
Display::pixel call wraps both coordinates. -/
def drawCols (byte row : Nat) : Nat → Nat → Nat → State → Option State
  | 0, _, _, s => some s
  | fuel + 1, mask, col, s =>
    if mask = 0 then some s
    else
      match (if byte &&& mask ≠ 0 then
               match bufGet s.display row col with
               | none => none
               | some b => some (if b then { s with reg := setV s.reg 0xF 1 } else s)
             else some s) with
      | none => none
      | some s =>
        let s := { s with display := (s.display.pixel row col (byte &&& mask ≠ 0)).1 }
        drawCols byte row fuel (mask >>> 1) (col + 1) s

/-- Outer `for byte in bytes` loop of the Dxyn handler.  The column start
`state.reg.V[x]` is re-read from the current state at each row, as in the
source (where V[0xF] may have been updated by a previous row). -/
def drawRows (x : Nat) : List Nat → Nat → State → Option State
  | [], _, s => some s
  | byte :: rest, row, s =>
    match drawCols byte row 8 0x80 (s.reg.V x) s with
    | none => none
    | some s => drawRows x rest (row + 1) s

/-- Dxyn - DRW Vx, Vy, nibble: slices n bytes of memory at I (the slice
panics when it runs past RAM_SIZE), clears VF, then draws row by row
starting at row V[y]. -/
def opDxyn (x y n : Nat) (s : State) : Option State :=
  let addr := s.reg.I
  if addr + n ≤ RAM_SIZE then
    let bytes := (List.range n).map (fun i => s.mem (addr + i))
    let s := { s with reg := setV s.reg 0xF 0 }
    drawRows x bytes (s.reg.V y) s
  else none

/-- Ex9E - SKP Vx: `state.key[state.reg.V[x] as usize]` is indexed with the
raw register value, no mask or range check (checked indexing: None when
V[x] ≥ KEYBOARD_SIZE). -/
def opEx9E (x : Nat) (s : State) : Option State :=
  match keyGet s.key (s.reg.V x) with
  | none => none
  | some b =>
    some (if b then { s with reg := { s.reg with PC := s.reg.PC + 2 } } else s)

/-- ExA1 - SKNP Vx: same raw indexing as Ex9E, skipping when not pressed. -/
def opExA1 (x : Nat) (s : State) : Option State :=
  match keyGet s.key (s.reg.V x) with
  | none => none
  | some b =>
    some (if !b then { s with reg := { s.reg with PC := s.reg.PC + 2 } } else s)

/-- Fx07 - LD Vx, DT. -/
def opFx07 (x : Nat) (s : State) : State :=
  { s with reg := setV s.reg x s.reg.DT }

/-- Fx0A - LD Vx, K: the source stores the constant 1 into V[x] and
returns immediately (the `panic!("Fx0A unsuporrted")` line above it is
commented out); it neither consults the keypad nor suspends. -/
def opFx0A (x : Nat) (s : State) : State :=
  { s with reg := setV s.reg x 1 }

/-- Fx15 - LD DT, Vx. -/
def opFx15 (x : Nat) (s : State) : State :=
  { s with reg := { s.reg with DT := s.reg.V x } }

/-- Fx18 - LD ST, Vx. -/
def opFx18 (x : Nat) (s : State) : State :=
  { s with reg := { s.reg with ST := s.reg.V x } }

/-- Fx1E - ADD I, Vx (Wrapping u16 addition). -/
def opFx1E (x : Nat) (s : State) : State :=
  { s with reg := { s.reg with I := wadd16 s.reg.I (s.reg.V x) } }

/-- Fx29 - LD F, Vx: I := digit * 5. -/
def opFx29 (x : Nat) (s : State) : State :=
  { s with reg := { s.reg with I := s.reg.V x * 5 } }

/-- Fx33 - LD B, Vx: the source iterates `for i in 2..0`, but the Rust
range `2..0` is empty (a range `a..b` yields the i with a ≤ i < b), so the
loop body never runs and memory is left untouched. -/
def opFx33 (x : Nat) (s : State) : Option State :=
  let res := (rustRange 2 0).foldl
    (fun acc i => acc.bind (fun p : (Nat → Nat) × Nat =>
      (memSet p.1 (s.reg.I + i) (p.2 % 10)).map (fun m => (m, p.2 / 10))))
    (some (s.mem, s.reg.V x))
  res.map (fun p => { s with mem := p.1 })

/-- Fx55 - LD [I], Vx: copy V0..Vx inclusive into memory at I (checked
writes). -/
def opFx55 (x : Nat) (s : State) : Option State :=
  let start := s.reg.I
  ((rustRange 0 (x + 1)).foldl
    (fun acc i => acc.bind (fun m => memSet m (start + i) (s.reg.V i)))
    (some s.mem)).map (fun m => { s with mem := m })

/-- Fx65 - LD Vx, [I]: read memory at I into V0..Vx inclusive (checked
reads). -/
def opFx65 (x : Nat) (s : State) : Option State :=
  let start := s.reg.I
  (rustRange 0 (x + 1)).foldl
    (fun acc i => acc.bind (fun t =>
      (memGet t.mem (start + i)).map (fun v => { t with reg := setV t.reg i v })))
    (some s)

/-- Decode-and-dispatch table of Inst::exec: the nibble patterns are
checked in the source's match order; an opcode matching none of the 34
forms is a fatal decode error (None, for the panic). -/
def decodeExec (rnd a x y n : Nat) (s : State) : Option State :=
  if a = 0x0 ∧ x = 0x0 ∧ y = 0xE ∧ n = 0x0 then some (op00E0 s)
  else if a = 0x0 ∧ x = 0x0 ∧ y = 0xE ∧ n = 0xE then op00EE s
  else if a = 0x1 then some (op1nnn x y n s)
  else if a = 0x2 then op2nnn x y n s
  else if a = 0x3 then some (op3xkk x y n s)
  else if a = 0x4 then some (op4xkk x y n s)
  else if a = 0x5 ∧ n = 0x0 then some (op5xy0 x y s)
  else if a = 0x6 then some (op6xkk x y n s)
  else if a = 0x7 then some (op7xkk x y n s)
  else if a = 0x8 ∧ n = 0x0 then some (op8xy0 x y s)
  else if a = 0x8 ∧ n = 0x1 then some (op8xy1 x y s)
  else if a = 0x8 ∧ n = 0x2 then some (op8xy2 x y s)
  else if a = 0x8 ∧ n = 0x3 then some (op8xy3 x y s)
  else if a = 0x8 ∧ n = 0x4 then some (op8xy4 x y s)
  else if a = 0x8 ∧ n = 0x5 then some (op8xy5 x y s)
  else if a = 0x8 ∧ n = 0x6 then some (op8xy6 x s)
  else if a = 0x8 ∧ n = 0x7 then some (op8xy7 x y s)
  else if a = 0x8 ∧ n = 0xE then some (op8xyE x s)
  else if a = 0x9 ∧ n = 0x0 then some (op9xy0 x y s)
  else if a = 0xA then some (opAnnn x y n s)
  else if a = 0xB then some (opBnnn x y n s)
  else if a = 0xC then some (opCxkk rnd x y n s)
  else if a = 0xD then opDxyn x y n s
  else if a = 0xE ∧ y = 0x9 ∧ n = 0xE then opEx9E x s
  else if a = 0xE ∧ y = 0xA ∧ n = 0x1 then opExA1 x s
  else if a = 0xF ∧ y = 0x0 ∧ n = 0x7 then some (opFx07 x s)
  else if a = 0xF ∧ y = 0x0 ∧ n = 0xA then some (opFx0A x s)
  else if a = 0xF ∧ y = 0x1 ∧ n = 0x5 then some (opFx15 x s)
  else if a = 0xF ∧ y = 0x1 ∧ n = 0x8 then some (opFx18 x s)
  else if a = 0xF ∧ y = 0x1 ∧ n = 0xE then some (opFx1E x s)
  else if a = 0xF ∧ y = 0x2 ∧ n = 0x9 then some (opFx29 x s)
  else if a = 0xF ∧ y = 0x3 ∧ n = 0x3 then opFx33 x s
  else if a = 0xF ∧ y = 0x5 ∧ n = 0x5 then opFx55 x s
  else if a = 0xF ∧ y = 0x6 ∧ n = 0x5 then opFx65 x s
  else none

/-- Fetch of Inst::exec: read the bytes at PC and PC+1 (checked), combine
them big-endian, and advance PC by 2 before executing. -/
def fetchOp (s : State) : Option (Nat × State) :=
  match memGet s.mem s.reg.PC, memGet s.mem (s.reg.PC + 1) with
  | some upper, some lower =>
    some (upper * 256 + lower, { s with reg := { s.reg with PC := s.reg.PC + 2 } })
  | _, _ => none

/-- Inst::exec: fetch, decode into four nibbles, dispatch.  `rnd` is the
oracle for the random byte drawn by Cxkk. -/
def execStep (rnd : Nat) (s : State) : Option State :=
  match fetchOp s with
  | none => none
  | some (op, s) =>
    decodeExec rnd (op / 4096 % 16) (op / 256 % 16) (op / 16 % 16) (op % 16) s

/-- One iteration of the driver's update loop body: update_ST, update_DT,
then one fetch-decode-execute step. -/
def cycle (rnd : Nat) (s : State) : Option State :=
  let p := s.reg.update_ST s.audio
  let r := p.1.update_DT
  execStep rnd { s with reg := r, audio := p.2 }

/-- The Event::Loop(Loop::Update(_)) branch of the driver: `for _ in 0..5`
iterations of (update_ST; update_DT; exec).  Note the timer updates sit
inside the loop of 5 interpreter cycles. -/
def updateEvent (rnd : Nat) (s : State) : Option State :=
  (List.range 5).foldl (fun acc _ => acc.bind (cycle rnd)) (some s)

/-!
Concrete states for counterexamples and witnesses.  All follow the shape of
the state assembled in main(): zeroed memory, stack, registers and keypad, a
fresh 64x32 display and a fresh audio sink, with only the fields relevant to
the scenario overridden.
-/

/-- A fresh 64x32 display as built by Display::new in main(). -/
def initDisplay : Display :=
  { width := DISPLAY_MODE_WIDTH, height := DISPLAY_MODE_HEIGHT, buffer := fun _ _ => false }

/-- A fresh audio sink: empty queue, not paused. -/
def initAudio : Audio := { hasSource := false, paused := false }

/-- A baseline state with the given memory and register bank, everything
else as at startup (PC at the entry point). -/
def mkState (m : Nat → Nat) (v : Nat → Nat) : State :=
  { mem := m, stack := fun _ => 0,
    reg := { V := v, I := 0, DT := 0, ST := 0, PC := ENTRY_POINT, SP := 0 },
    display := initDisplay, audio := initAudio, key := fun _ => false }

/-- DRW scenario of C1: opcode D012 (DRW V0,V1,2) at the entry point,
V0 = 63, V1 = 31, sprite bytes C0 00 at I = 0x300. -/
def drwState : State :=
  { mkState
      (fun i => if i = 0x200 then 0xD0 else if i = 0x201 then 0x12
                else if i = 0x300 then 0xC0 else 0)
      (fun j => if j = 0 then 63 else if j = 1 then 31 else 0)
    with reg := { V := fun j => if j = 0 then 63 else if j = 1 then 31 else 0,
                  I := 0x300, DT := 0, ST := 0, PC := ENTRY_POINT, SP := 0 } }

/-- BCD scenario of C2: opcode F033 at the entry point, V0 = 123, I = 0x300. -/
def bcdState : State :=
  { mkState
      (fun i => if i = 0x200 then 0xF0 else if i = 0x201 then 0x33 else 0)
      (fun j => if j = 0 then 123 else 0)
    with reg := { V := fun j => if j = 0 then 123 else 0,
                  I := 0x300, DT := 0, ST := 0, PC := ENTRY_POINT, SP := 0 } }

/-- Timer scenario of C3: DT = ST = 5 and five LD V0,0 instructions
(0x6000) at the entry point, one driver update event. -/
def timerState : State :=
  { mkState
      (fun i => if 0x200 ≤ i ∧ i < 0x20A ∧ i % 2 = 0 then 0x60 else 0)
      (fun _ => 0)
    with reg := { V := fun _ => 0, I := 0, DT := 5, ST := 5, PC := ENTRY_POINT, SP := 0 } }

/-- Wait-for-key scenario of C4: opcode F00A at the entry point, V0 = 7,
no key pressed. -/
def waitKeyState : State :=
  mkState
    (fun i => if i = 0x200 then 0xF0 else if i = 0x201 then 0x0A else 0)
    (fun j => if j = 0 then 7 else 0)

/-- RET-underflow scenario of C5: opcode 00EE at the entry point, SP = 0. -/
def retEmptyState : State :=
  mkState (fun i => if i = 0x201 then 0xEE else 0) (fun _ => 0)

/-- CALL-overflow scenario of C5: opcode 2FFF at the entry point, SP = 15. -/
def callFullState : State :=
  { mkState (fun i => if i = 0x200 then 0x2F else if i = 0x201 then 0xFF else 0) (fun _ => 0)
    with reg := { V := fun _ => 0, I := 0, DT := 0, ST := 0, PC := ENTRY_POINT, SP := 15 } }

/-- ADD Vx,Vy counterexample state of C6: opcode 80F4 (ADD V0,V15) at the
entry point, V0 = 10, V15 = 200. -/
def addVfState : State :=
  mkState
    (fun i => if i = 0x200 then 0x80 else if i = 0x201 then 0xF4 else 0)
    (fun j => if j = 0 then 10 else if j = 15 then 200 else 0)

/-- ADD Vx,Vy witness state of C6: opcode 8124 (ADD V1,V2) at the entry
point, V1 = 200, V2 = 100. -/
def addState : State :=
  mkState
    (fun i => if i = 0x200 then 0x81 else if i = 0x201 then 0x24 else 0)
    (fun j => if j = 1 then 200 else if j = 2 then 100 else 0)

/-- Sound-timer witness state of C7: ST = 2, fresh audio sink. -/
def stReg : Reg := { V := fun _ => 0, I := 0, DT := 0, ST := 2, PC := ENTRY_POINT, SP := 0 }

/-- CALL/RET witness state of C8: opcode 2300 (CALL 0x300) at the entry
point, opcode 00EE at 0x300, SP = 0. -/
def callRetState : State :=
  mkState
    (fun i => if i = 0x200 then 0x23 else if i = 0x301 then 0xEE else 0)
    (fun _ => 0)

/-- CLS witness state of C9: opcode 00E0 at the entry point, a display
with every cell lit. -/
def clsState : State :=
  { mkState (fun i => if i = 0x201 then 0xE0 else 0) (fun _ => 0)
    with display := { initDisplay with buffer := fun _ _ => true } }

/-- SKP witness state of C10: opcode E09E (SKP V0) at the entry point,
V0 = 200 (no key value this large exists). -/
def skpState : State :=
  mkState
    (fun i => if i = 0x200 then 0xE0 else if i = 0x201 then 0x9E else 0)
    (fun j => if j = 0 then 200 else 0)

/-!
Helper lemmas shared by the claim theorems.
-/

/-- Fetch equation: with both instruction bytes readable, fetchOp returns
the big-endian opcode and the state with PC advanced by 2. -/
theorem fetchOp_eq (s : State) (upper lower : Nat)
    (hPC : s.reg.PC + 1 < RAM_SIZE)
    (h1 : s.mem s.reg.PC = upper) (h2 : s.mem (s.reg.PC + 1) = lower) :
    fetchOp s = some (upper * 256 + lower,
      { s with reg := { s.reg with PC := s.reg.PC + 2 } }) := by
  have hp : s.reg.PC < RAM_SIZE := by omega
  unfold fetchOp memGet
  rw [if_pos hp, if_pos hPC, h1, h2]

/-- One-step equation: execStep with readable instruction bytes is the
decode-dispatch of their big-endian combination on the PC-advanced state. -/
theorem execStep_eq (rnd : Nat) (s : State) (upper lower : Nat)
    (hPC : s.reg.PC + 1 < RAM_SIZE)
    (h1 : s.mem s.reg.PC = upper) (h2 : s.mem (s.reg.PC + 1) = lower) :
    execStep rnd s =
      decodeExec rnd ((upper * 256 + lower) / 4096 % 16)
        ((upper * 256 + lower) / 256 % 16) ((upper * 256 + lower) / 16 % 16)
        ((upper * 256 + lower) % 16)
        { s with reg := { s.reg with PC := s.reg.PC + 2 } } := by
  unfold execStep
  rw [fetchOp_eq s upper lower hPC h1 h2]

/-- Effect of the 8xy4 handler when neither operand index is 0xF: carry
into VF from the original values, low byte of the sum into Vx, all other
registers untouched. -/
theorem op8xy4_spec (x y : Nat) (s : State) (hxF : x ≠ 15) (hyF : y ≠ 15) :
    (op8xy4 x y s).reg.V x = (s.reg.V x + s.reg.V y) % 256
    ∧ (op8xy4 x y s).reg.V 15 = (if 255 < s.reg.V x + s.reg.V y then 1 else 0)
    ∧ (∀ j, j ≠ x → j ≠ 15 → (op8xy4 x y s).reg.V j = s.reg.V j) := by
  have h15x : (15 : Nat) ≠ x := fun h => hxF h.symm
  refine ⟨?_, ?_, ?_⟩
  · simp [op8xy4, setV, wadd8, hxF, hyF]
  · simp [op8xy4, setV, h15x]
  · intro j hjx hj15
    simp [op8xy4, setV, hjx, hj15]

/-!
Claim theorems.
-/

/-- C1.  The claim says DRW wraps both coordinates and never performs an
out-of-bounds display-buffer access; in particular draw(x=63, y=31,
height=2) touches rows 31 and 0.  On the code this fails: only the
Display::pixel write wraps, while the collision read
`state.display.buffer[row][col]` indexes with the raw row and column, so a
set sprite bit falling past the display edge is an out-of-bounds panic.
Here DRW V0,V1,2 with V0 = 63, V1 = 31 and sprite byte 0xC0 (two leading
bits) on the 64x32 display reaches col = 64 with a set bit and the step is
fatal (None) instead of wrapping. -/
theorem drw_offscreen_collision_read_is_fatal :
    drwState.reg.V 0 = 63 ∧ drwState.reg.V 1 = 31 ∧ drwState.display.width = 64
    ∧ drwState.display.height = 32 ∧ execStep 0 drwState = none :=
  ⟨rfl, rfl, rfl, rfl, rfl⟩

/-- C2.  The claim says LD B,Vx stores the decimal digits of Vx at I, I+1,
I+2.  On the code this fails: the handler's loop `for i in 2..0` iterates
over the empty Rust range, so nothing is ever written.  With V0 = 123 and
I = 0x300, memory is left completely unchanged (the digits 1, 2, 3 never
appear). -/
theorem fx33_stores_no_digits :
    bcdState.reg.V 0 = 123 ∧ bcdState.reg.I = 0x300
    ∧ (execStep 0 bcdState).map (fun t => (t.mem 0x300, t.mem 0x301, t.mem 0x302)) =
        some (0, 0, 0)
    ∧ (execStep 0 bcdState).map State.mem = some bcdState.mem :=
  ⟨rfl, rfl, rfl, rfl⟩

/-- C3.  The claim says tick_delay and tick_sound run exactly once per
driver update event, so DT and ST drop by at most 1 per tick.  On the code
this fails: update_ST and update_DT sit inside the `for _ in 0..5` cycle
loop of the update branch, so they run 5 times per tick.  Starting from
DT = ST = 5 with five LD V0,0 instructions at the entry point, a single
update event drives both timers all the way to 0. -/
theorem update_event_ticks_timers_five_times :
    timerState.reg.DT = 5 ∧ timerState.reg.ST = 5
    ∧ (updateEvent 0 timerState).map (fun t => (t.reg.DT, t.reg.ST)) = some (0, 0) :=
  ⟨rfl, rfl, rfl⟩

/-- C4.  The claim says LD Vx,K suspends execution until a key press and
stores the pressed key's value.  On the code this fails: the handler (its
panic line commented out) stores the constant 1 into Vx and the step
completes immediately.  With every key up and V0 = 7, the step still
finishes, leaving V0 = 1 and PC advanced past the instruction. -/
theorem fx0a_stores_constant_one :
    waitKeyState.key = (fun _ => false) ∧ waitKeyState.reg.V 0 = 7
    ∧ (execStep 0 waitKeyState).map (fun t => (t.reg.V 0, t.reg.PC)) = some (1, 0x202) :=
  ⟨rfl, rfl, rfl⟩

/-- C5.  RET with the stack empty (SP = 0) is fatal: the checked u8
decrement of SP panics rather than wrapping or clamping.  CALL with the
stack pointer at capacity (SP at or past 15) is fatal: the incremented
pointer indexes the 16-slot stack out of bounds (and at SP = 255 the u8
increment itself overflows).  Both executions are None. -/
theorem call_ret_overflow_underflow_fatal (rnd rnd2 nnn : Nat) (s t : State)
    (hsPC : s.reg.PC + 1 < RAM_SIZE)
    (hs1 : s.mem s.reg.PC = 0x00) (hs2 : s.mem (s.reg.PC + 1) = 0xEE)
    (hsSP : s.reg.SP = 0)
    (hn : nnn < 4096) (htPC : t.reg.PC + 1 < RAM_SIZE)
    (ht1 : t.mem t.reg.PC = 0x20 + nnn / 256) (ht2 : t.mem (t.reg.PC + 1) = nnn % 256)
    (htSP : 15 ≤ t.reg.SP) :
    execStep rnd s = none ∧ execStep rnd2 t = none := by
  constructor
  · rw [execStep_eq rnd s 0x00 0xEE hsPC hs1 hs2]
    norm_num [decodeExec]
    simp [op00EE, stackGet, u8sub, hsSP, STACK_SIZE]
  · rw [execStep_eq rnd2 t (0x20 + nnn / 256) (nnn % 256) htPC ht1 ht2]
    have ha : ((0x20 + nnn / 256) * 256 + nnn % 256) / 4096 % 16 = 2 := by omega
    have hxn : ((0x20 + nnn / 256) * 256 + nnn % 256) / 256 % 16 = nnn / 256 := by omega
    have hyn : ((0x20 + nnn / 256) * 256 + nnn % 256) / 16 % 16 = nnn / 16 % 16 := by omega
    have hnn : ((0x20 + nnn / 256) * 256 + nnn % 256) % 16 = nnn % 16 := by omega
    rw [ha, hxn, hyn, hnn]
    have hd : ∀ s1 : State, decodeExec rnd2 2 (nnn / 256) (nnn / 16 % 16) (nnn % 16) s1 =
        op2nnn (nnn / 256) (nnn / 16 % 16) (nnn % 16) s1 := by
      intro s1; norm_num [decodeExec]
    rw [hd]
    by_cases hc : t.reg.SP + 1 ≤ 255
    · have hge : ¬ (t.reg.SP + 1 < 16) := by omega
      simp [op2nnn, u8add, stackSet, STACK_SIZE, hc, hge]
    · simp [op2nnn, u8add, hc]

/-- Witness for C5: a RET at the entry point with SP = 0 and a CALL 0xFFF
at the entry point with SP = 15 are both fatal. -/
theorem call_ret_overflow_underflow_fatal_witness :
    execStep 0 retEmptyState = none ∧ execStep 0 callFullState = none :=
  call_ret_overflow_underflow_fatal 0 0 0xFFF retEmptyState callFullState
    (by decide) (by decide) (by decide) (by decide) (by decide) (by decide)
    (by decide) (by decide) (by decide)

/-- C6 counterexample.  The claim, for every pair of register indices,
predicts that ADD Vx,Vy stores the low byte of the original sum in Vx.
With x = 0, y = 15, V0 = 10 and V15 = 200 the code stores 10 (the carry 0
freshly written into VF is used as the addend), not (10 + 200) % 256 = 210,
so the claim as stated is false. -/
theorem add_vxvy_updated_vf_as_operand_cex :
    ¬ ((execStep 0 addVfState).map (fun t => t.reg.V 0) =
        some ((addVfState.reg.V 0 + addVfState.reg.V 15) % 256)) := by
  decide

/-- C6 as amended.  For register indices x, y other than 0xF, executing
ADD Vx,Vy (opcode 8xy4) sets VF to 1 iff the unsigned sum of the original
Vx and Vy exceeds 255 (else 0), stores the low 8 bits of the sum in Vx,
leaves every other register and state component unchanged, and never reads
VF as an input operand.  (When x or y is 0xF the handler writes the carry
into VF before reading its operands, so the fresh flag becomes an
operand.) -/
theorem add_vxvy_carry_and_low_byte (rnd x y : Nat) (s : State)
    (hx : x < 16) (hy : y < 16) (hxF : x ≠ 15) (hyF : y ≠ 15)
    (hPC : s.reg.PC + 1 < RAM_SIZE)
    (hhi : s.mem s.reg.PC = 0x80 + x) (hlo : s.mem (s.reg.PC + 1) = y * 16 + 4) :
    ∃ s2, execStep rnd s = some s2
      ∧ s2.reg.V x = (s.reg.V x + s.reg.V y) % 256
      ∧ s2.reg.V 15 = (if 255 < s.reg.V x + s.reg.V y then 1 else 0)
      ∧ (∀ j, j ≠ x → j ≠ 15 → s2.reg.V j = s.reg.V j)
      ∧ s2.reg.PC = s.reg.PC + 2
      ∧ s2.mem = s.mem ∧ s2.stack = s.stack ∧ s2.display = s.display
      ∧ s2.key = s.key := by
  rw [execStep_eq rnd s (0x80 + x) (y * 16 + 4) hPC hhi hlo]
  have ha : ((0x80 + x) * 256 + (y * 16 + 4)) / 4096 % 16 = 8 := by omega
  have hxn : ((0x80 + x) * 256 + (y * 16 + 4)) / 256 % 16 = x := by omega
  have hyn : ((0x80 + x) * 256 + (y * 16 + 4)) / 16 % 16 = y := by omega
  have hnn : ((0x80 + x) * 256 + (y * 16 + 4)) % 16 = 4 := by omega
  rw [ha, hxn, hyn, hnn]
  have hd : ∀ s1 : State, decodeExec rnd 8 x y 4 s1 = some (op8xy4 x y s1) := by
    intro s1; norm_num [decodeExec]
  rw [hd]
  obtain ⟨e1, e2, e3⟩ :=
    op8xy4_spec x y { s with reg := { s.reg with PC := s.reg.PC + 2 } } hxF hyF
  exact ⟨_, rfl, e1, e2, e3, rfl, rfl, rfl, rfl, rfl⟩

/-- Witness for the amended C6: ADD V1,V2 with V1 = 200, V2 = 100 gives
V1 = 44 and VF = 1. -/
theorem add_vxvy_carry_and_low_byte_witness :
    ∃ s2, execStep 0 addState = some s2
      ∧ s2.reg.V 1 = (addState.reg.V 1 + addState.reg.V 2) % 256
      ∧ s2.reg.V 15 = (if 255 < addState.reg.V 1 + addState.reg.V 2 then 1 else 0)
      ∧ (∀ j, j ≠ 1 → j ≠ 15 → s2.reg.V j = addState.reg.V j)
      ∧ s2.reg.PC = addState.reg.PC + 2
      ∧ s2.mem = addState.mem ∧ s2.stack = addState.stack
      ∧ s2.display = addState.display ∧ s2.key = addState.key :=
  add_vxvy_carry_and_low_byte 0 1 2 addState (by decide) (by decide) (by decide)
    (by decide) (by decide) (by decide) (by decide)

/-- C7.  One call of update_ST: if ST = 0 nothing changes; if ST > 1 the
audio trigger is playing afterwards (started if it was not) and ST drops by
1; if ST = 1 the timer reaches 0 and the trigger is stopped.  Consequently
with ST = 2 the trigger reports playing after the first tick and
not-playing after the second, with ST going 2, 1, 0. -/
theorem tick_sound_matches_spec (r : Reg) (a : Audio) :
    (r.ST = 0 → r.update_ST a = (r, a))
    ∧ (1 < r.ST → (r.update_ST a).1 = { r with ST := r.ST - 1 }
        ∧ ((r.update_ST a).2).is_playing = true)
    ∧ (r.ST = 1 → (r.update_ST a).1 = { r with ST := 0 }
        ∧ ((r.update_ST a).2).is_playing = false)
    ∧ (r.ST = 2 →
        ((r.update_ST a).2).is_playing = true
        ∧ (r.update_ST a).1.ST = 1
        ∧ ((r.update_ST a).1.update_ST (r.update_ST a).2).1.ST = 0
        ∧ (((r.update_ST a).1.update_ST (r.update_ST a).2).2).is_playing = false) := by
  obtain ⟨hs, hp⟩ := a
  refine ⟨?_, ?_, ?_, ?_⟩
  · intro h
    simp [Reg.update_ST, h]
  · intro h
    have h0 : 0 < r.ST := by omega
    have h1 : ¬ (r.ST - 1 = 0) := by omega
    cases hs <;> cases hp <;>
      simp [Reg.update_ST, h0, h1, Audio.play, Audio.stop, Audio.is_playing]
  · intro h
    cases hs <;> cases hp <;>
      simp [Reg.update_ST, h, Audio.play, Audio.stop, Audio.is_playing]
  · intro h
    cases hs <;> cases hp <;>
      simp [Reg.update_ST, h, Audio.play, Audio.stop, Audio.is_playing]

/-- Witness for C7: starting from ST = 2 and a fresh audio sink, the
trigger plays after the first tick and is silent after the second. -/
theorem tick_sound_matches_spec_witness :
    ((stReg.update_ST initAudio).2).is_playing = true
    ∧ (stReg.update_ST initAudio).1.ST = 1
    ∧ ((stReg.update_ST initAudio).1.update_ST (stReg.update_ST initAudio).2).1.ST = 0
    ∧ (((stReg.update_ST initAudio).1.update_ST
          (stReg.update_ST initAudio).2).2).is_playing = false :=
  (tick_sound_matches_spec stReg initAudio).2.2.2 rfl

/-- C8.  A CALL nnn whose target holds a RET, executed from a state with
the stack pointer strictly below capacity, composes to a state whose PC is
the address directly after the CALL and whose SP equals its pre-CALL
value. -/
theorem call_then_ret_restores_pc_sp (rnd rnd2 nnn : Nat) (s : State)
    (hn : nnn < 4096) (hPC : s.reg.PC + 1 < RAM_SIZE)
    (hhi : s.mem s.reg.PC = 0x20 + nnn / 256) (hlo : s.mem (s.reg.PC + 1) = nnn % 256)
    (hr1 : s.mem nnn = 0x00) (hr2 : s.mem (nnn + 1) = 0xEE) (hrPC : nnn + 1 < RAM_SIZE)
    (hSP : s.reg.SP < 15) :
    ∃ s2, (execStep rnd s).bind (execStep rnd2) = some s2
      ∧ s2.reg.PC = s.reg.PC + 2 ∧ s2.reg.SP = s.reg.SP := by
  have h1 : execStep rnd s = some
      { s with stack := fun j => if j = s.reg.SP + 1 then s.reg.PC + 2 else s.stack j,
               reg := { s.reg with SP := s.reg.SP + 1, PC := nnn } } := by
    rw [execStep_eq rnd s (0x20 + nnn / 256) (nnn % 256) hPC hhi hlo]
    have ha : ((0x20 + nnn / 256) * 256 + nnn % 256) / 4096 % 16 = 2 := by omega
    have hxn : ((0x20 + nnn / 256) * 256 + nnn % 256) / 256 % 16 = nnn / 256 := by omega
    have hyn : ((0x20 + nnn / 256) * 256 + nnn % 256) / 16 % 16 = nnn / 16 % 16 := by omega
    have hnn : ((0x20 + nnn / 256) * 256 + nnn % 256) % 16 = nnn % 16 := by omega
    rw [ha, hxn, hyn, hnn]
    have hd : ∀ s1 : State, decodeExec rnd 2 (nnn / 256) (nnn / 16 % 16) (nnn % 16) s1 =
        op2nnn (nnn / 256) (nnn / 16 % 16) (nnn % 16) s1 := by
      intro s1; norm_num [decodeExec]
    rw [hd]
    have hc1 : s.reg.SP + 1 ≤ 255 := by omega
    have hc2 : s.reg.SP + 1 < STACK_SIZE := by simp [STACK_SIZE]; omega
    have hb : nnn / 256 * 256 + nnn / 16 % 16 * 16 + nnn % 16 = nnn := by omega
    simp [op2nnn, u8add, stackSet, hc1, hc2, hb]
  rw [h1, Option.some_bind]
  set s1 : State :=
    { s with stack := fun j => if j = s.reg.SP + 1 then s.reg.PC + 2 else s.stack j,
             reg := { s.reg with SP := s.reg.SP + 1, PC := nnn } } with hs1
  have h2 : execStep rnd2 s1 = some
      { s1 with reg := { s1.reg with PC := s.reg.PC + 2, SP := s.reg.SP } } := by
    have e1 : s1.reg.PC + 1 < RAM_SIZE := hrPC
    have e2 : s1.mem s1.reg.PC = 0x00 := hr1
    have e3 : s1.mem (s1.reg.PC + 1) = 0xEE := hr2
    rw [execStep_eq rnd2 s1 0x00 0xEE e1 e2 e3]
    norm_num [decodeExec]
    have hg : s1.reg.SP < STACK_SIZE := by simp [hs1, STACK_SIZE]; omega
    have hu : (1 : Nat) ≤ s1.reg.SP := by simp [hs1]
    simp [op00EE, stackGet, u8sub, hg, hu, hs1]
  rw [h2]
  exact ⟨_, rfl, rfl, rfl⟩

/-- Witness for C8: CALL 0x300 at the entry point followed by the RET at
0x300 ends with PC = 0x202 and SP = 0. -/
theorem call_then_ret_restores_pc_sp_witness :
    ∃ s2, (execStep 0 callRetState).bind (execStep 0) = some s2
      ∧ s2.reg.PC = callRetState.reg.PC + 2 ∧ s2.reg.SP = callRetState.reg.SP :=
  call_then_ret_restores_pc_sp 0 0 0x300 callRetState (by decide) (by decide)
    (by decide) (by decide) (by decide) (by decide) (by decide) (by decide)

/-- C9.  Executing CLS (00E0) clears every display cell, advances PC by
exactly 2 through the shared fetch step, and leaves all other state
(memory, registers including VF, I, DT, ST, SP, stack, keypad, audio, the
display dimensions) unchanged: the result is exactly the input state with
PC advanced and the buffer all-false. -/
theorem cls_clears_display_only (rnd : Nat) (s : State)
    (hPC : s.reg.PC + 1 < RAM_SIZE)
    (hhi : s.mem s.reg.PC = 0x00) (hlo : s.mem (s.reg.PC + 1) = 0xE0) :
    execStep rnd s = some { s with
      reg := { s.reg with PC := s.reg.PC + 2 },
      display := { s.display with buffer := fun _ _ => false } } := by
  rw [execStep_eq rnd s 0x00 0xE0 hPC hhi hlo]
  norm_num [decodeExec, op00E0, Display.cls]

/-- Witness for C9: CLS on an all-lit display at the entry point yields
the same state with PC = 0x202 and an all-dark buffer. -/
theorem cls_clears_display_only_witness :
    execStep 0 clsState = some { clsState with
      reg := { clsState.reg with PC := clsState.reg.PC + 2 },
      display := { clsState.display with buffer := fun _ _ => false } } :=
  cls_clears_display_only 0 clsState (by decide) (by decide) (by decide)

/-- C10.  SKP Vx and SKNP Vx index the 16-entry keypad with the raw value
of Vx, with no mask or range check: the step survives exactly when
Vx ≤ 15, and is a fatal out-of-bounds access exactly when Vx ≥ 16. -/
theorem skp_sknp_key_index_bounds (rnd x : Nat) (s : State) (hx : x < 16)
    (hPC : s.reg.PC + 1 < RAM_SIZE)
    (hhi : s.mem s.reg.PC = 0xE0 + x)
    (hlo : s.mem (s.reg.PC + 1) = 0x9E ∨ s.mem (s.reg.PC + 1) = 0xA1) :
    ((execStep rnd s).isNone ↔ 16 ≤ s.reg.V x) := by
  rcases hlo with h | h
  · rw [execStep_eq rnd s (0xE0 + x) 0x9E hPC hhi h]
    have ha : ((0xE0 + x) * 256 + 0x9E) / 4096 % 16 = 14 := by omega
    have hxn : ((0xE0 + x) * 256 + 0x9E) / 256 % 16 = x := by omega
    have hyn : ((0xE0 + x) * 256 + 0x9E) / 16 % 16 = 9 := by omega
    have hnn : ((0xE0 + x) * 256 + 0x9E) % 16 = 14 := by omega
    rw [ha, hxn, hyn, hnn]
    have hd : ∀ s1 : State, decodeExec rnd 14 x 9 14 s1 = opEx9E x s1 := by
      intro s1; norm_num [decodeExec]
    rw [hd]
    by_cases hv : s.reg.V x < 16
    · simp [opEx9E, keyGet, KEYBOARD_SIZE, hv]; try omega
    · simp [opEx9E, keyGet, KEYBOARD_SIZE, hv]; try omega
  · rw [execStep_eq rnd s (0xE0 + x) 0xA1 hPC hhi h]
    have ha : ((0xE0 + x) * 256 + 0xA1) / 4096 % 16 = 14 := by omega
    have hxn : ((0xE0 + x) * 256 + 0xA1) / 256 % 16 = x := by omega
    have hyn : ((0xE0 + x) * 256 + 0xA1) / 16 % 16 = 10 := by omega
    have hnn : ((0xE0 + x) * 256 + 0xA1) % 16 = 1 := by omega
    rw [ha, hxn, hyn, hnn]
    have hd : ∀ s1 : State, decodeExec rnd 14 x 10 1 s1 = opExA1 x s1 := by
      intro s1; norm_num [decodeExec]
    rw [hd]
    by_cases hv : s.reg.V x < 16
    · simp [opExA1, keyGet, KEYBOARD_SIZE, hv]; try omega
    · simp [opExA1, keyGet, KEYBOARD_SIZE, hv]; try omega

/-- Witness for C10: SKP V0 with V0 = 200 is fatal. -/
theorem skp_sknp_key_index_bounds_witness :
    ((execStep 0 skpState).isNone ↔ 16 ≤ skpState.reg.V 0) :=
  skp_sknp_key_index_bounds 0 0 skpState (by decide) (by decide) (by decide)
    (Or.inl (by decide))

end Chip8
